import Mathlib

/-!
Shallow embedding of the ivan-task-manager notification core
(backend/app: scorer.py, escalation.py, events.py, notification_config.py,
notification_filter.py, notification_state.py, event_detector.py, and the
escalation dispatch loop of notifier.py with the grouped-message layout of
slack_blocks.py), together with theorems settling the frozen claims.

Modelling conventions:
- Calendar dates are integer day numbers (`Int`); `date.today()` becomes an
  explicit `today : Int` parameter, and Python's `str(date)` becomes
  `toString` of that integer (an injective encoding of dates as strings).
- Datetimes (only used for the 24h recency bonus) are integer seconds with an
  explicit `now : Int` parameter; 24 hours is 86400 seconds.
- SQLAlchemy `Task` rows become a Lean structure; the nullable columns become
  `Option` fields.  The duck-typed `notification_state` dict becomes a
  structure whose fields carry the dict's `.get` defaults (`None` -> `none`,
  `[]` -> `[]`), which is exactly how the source reads the dict.
- Webhook payloads are modelled as JSON values (`JValue`), and the Python
  code that walks them runs in `Except String` so that every operation that
  can raise (`.get` on a non-dict, `[0]` on a non-list, `.lower()` on a
  non-string, `in` on an unsupported type, slicing a dict) surfaces as
  `.error`.  Python's `or`/`and` short-circuiting is preserved.
- The Slack send boundary (`chat_postMessage`, the `_should_send`
  quiet-hours/content-hash suppression, DB bookkeeping) is outside the core
  per spec section 5; the dispatcher is modelled as returning the list of
  messages it emits, with sends always succeeding.
-/

namespace ITM

/-! ## JSON values (webhook payloads) and the fallible Python operations -/

inductive JValue where
  | null : JValue
  | bool : Bool → JValue
  | num : Int → JValue
  | str : String → JValue
  | arr : List JValue → JValue
  | obj : List (String × JValue) → JValue
  deriving Repr

mutual

def JValue.beq : JValue → JValue → Bool
  | .null, .null => true
  | .bool a, .bool b => a == b
  | .num a, .num b => a == b
  | .str a, .str b => a == b
  | .arr a, .arr b => JValue.beqList a b
  | .obj a, .obj b => JValue.beqFields a b
  | _, _ => false

def JValue.beqList : List JValue → List JValue → Bool
  | [], [] => true
  | x :: xs, y :: ys => JValue.beq x y && JValue.beqList xs ys
  | _, _ => false

def JValue.beqFields : List (String × JValue) → List (String × JValue) → Bool
  | [], [] => true
  | (k, x) :: xs, (l, y) :: ys => k == l && JValue.beq x y && JValue.beqFields xs ys
  | _, _ => false

end

instance : BEq JValue := ⟨JValue.beq⟩

/-- Python truthiness of a JSON value. -/
def JValue.truthy : JValue → Bool
  | .null => false
  | .bool b => b
  | .num n => n != 0
  | .str s => !s.isEmpty
  | .arr l => !l.isEmpty
  | .obj l => !l.isEmpty

mutual

/-- Python `repr` of a JSON value (used inside the rendering of lists/dicts). -/
def JValue.pyRepr : JValue → String
  | .null => "None"
  | .bool b => if b then "True" else "False"
  | .num n => toString n
  | .str s => "'" ++ s ++ "'"
  | .arr l => "[" ++ String.intercalate ", " (JValue.pyReprList l) ++ "]"
  | .obj l => "\x7b" ++ String.intercalate ", " (JValue.pyReprFields l) ++ "\x7d"

def JValue.pyReprList : List JValue → List String
  | [] => []
  | x :: xs => JValue.pyRepr x :: JValue.pyReprList xs

def JValue.pyReprFields : List (String × JValue) → List String
  | [] => []
  | (k, x) :: xs => ("'" ++ k ++ "': " ++ JValue.pyRepr x) :: JValue.pyReprFields xs

end

/-- Python `str()` of a JSON value, as used by f-string interpolation. -/
def JValue.pyStr : JValue → String
  | .str s => s
  | v => v.pyRepr

/-- Python `container.get(key, default)`: raises AttributeError on non-dicts,
returns the stored value (even `None`) when the key is present. -/
def pyGet (v : JValue) (k : String) (dflt : JValue) : Except String JValue :=
  match v with
  | .obj fields =>
    match fields.lookup k with
    | some w => .ok w
    | none => .ok dflt
  | _ => .error "AttributeError: get"

/-- Python `container.get(key)` (default `None`). -/
def pyGetOpt (v : JValue) (k : String) : Except String JValue :=
  pyGet v k .null

/-- Python `container[0]`: IndexError on an empty list, TypeError/KeyError on
anything that is not a list. -/
def pyIndex0 : JValue → Except String JValue
  | .arr (x :: _) => .ok x
  | .arr [] => .error "IndexError"
  | _ => .error "TypeError: not subscriptable by 0"

/-- Python `str.lower()` on the string's characters (the statuses and
comment bodies involved are ASCII). -/
def strLower (s : String) : String :=
  String.mk (s.toList.map Char.toLower)

/-- Python `value.lower()`: AttributeError unless the value is a string. -/
def pyLower : JValue → Except String JValue
  | .str s => .ok (.str (strLower s))
  | _ => .error "AttributeError: lower"

/-- Substring test on character lists (Python `needle in haystack` for
strings; the empty needle is contained in everything). -/
def containsSub (hay needle : List Char) : Bool :=
  match hay with
  | [] => needle.isEmpty
  | _ :: t => needle.isPrefixOf hay || containsSub t needle

/-- Python `needle in haystack` for two strings. -/
def strIn (needle hay : String) : Bool :=
  containsSub hay.toList needle.toList

/-- Python `needle in container` where `needle` is a string literal:
substring test on strings, membership on lists, key membership on dicts,
TypeError otherwise. -/
def pyIn (needle : String) : JValue → Except String Bool
  | .str s => .ok (strIn needle s)
  | .arr l => .ok (l.contains (.str needle))
  | .obj l => .ok ((l.map Prod.fst).contains needle)
  | _ => .error "TypeError: argument of type is not iterable"

/-- Python `value[:100]` (used for `body_preview`): slices strings and lists,
TypeError on anything else. -/
def pySlice100 : JValue → Except String JValue
  | .str s => .ok (.str (String.mk (s.toList.take 100)))
  | .arr l => .ok (.arr (l.take 100))
  | _ => .error "TypeError: unsliceable"

/-! ## Data model (models.py Task, notification_state dict, events.py) -/

/-- The per-task notification-state dict.  Field defaults are the `.get`
defaults the source uses when reading the dict. -/
structure NotificationState where
  dedupe_keys : List String := []
  last_deadline_notified : Option String := none
  last_overdue_notified : Option String := none
  prev_status : Option String := none
  prev_assignee : Option String := none
  prev_blocked_by : List String := []
  deriving Repr, DecidableEq

/-- The `tasks` row (models.py), restricted to the columns the notification
core reads.  `is_blocking` / `blocked_by` are the list-valued properties
(`or []` of the JSON columns). -/
structure Task where
  id : String := ""
  title : String := ""
  url : String := ""
  status : String := "todo"
  assignee : Option String := none
  due_date : Option Int := none
  is_revenue : Bool := false
  is_blocking : List String := []
  blocked_by : List String := []
  score : Int := 0
  last_activity : Option Int := none
  notification_state : NotificationState := {}
  deriving Repr, DecidableEq

inductive EventType where
  | deadline_warning
  | overdue
  | assigned
  | status_critical
  | mentioned
  | comment_on_owned
  | blocker_resolved
  deriving Repr, DecidableEq

/-- The `.value` of the Python `EventType` enum member. -/
def EventType.value : EventType → String
  | .deadline_warning => "deadline_warning"
  | .overdue => "overdue"
  | .assigned => "assigned"
  | .status_critical => "status_critical"
  | .mentioned => "mentioned"
  | .comment_on_owned => "comment_on_owned"
  | .blocker_resolved => "blocker_resolved"

/-- events.py `Event`.  `context` holds the free-form rendering data. -/
structure Event where
  trigger : EventType
  task_id : String
  fingerprint : String
  context : List (String × JValue) := []
  deriving Repr

/-- events.py `Event.dedupe_key`. -/
def Event.dedupe_key (e : Event) : String :=
  e.trigger.value ++ ":" ++ e.task_id ++ ":" ++ e.fingerprint

/-! ## scorer.py -/

/-- scorer.py `calculate_urgency`. -/
def calculate_urgency (today : Int) (due_date : Option Int) : Int :=
  match due_date with
  | none => 1
  | some due =>
    let days_until_due := due - today
    if days_until_due < 0 then 5
    else if days_until_due = 0 then 4
    else if days_until_due ≤ 7 then 3
    else 1

/-- scorer.py `calculate_score`. -/
def calculate_score (now today : Int) (task : Task) : Int :=
  let score : Int := 0
  let score := score + (if task.is_revenue then 1000 else 0)
  let blocking_count : Int := task.is_blocking.length
  let score := score + blocking_count * 500
  let urgency := calculate_urgency today task.due_date
  let score := score + urgency * 100
  let score := score +
    (match task.last_activity with
     | some la => if now - la < 86400 then 1 else 0
     | none => 0)
  score

/-! ## escalation.py -/

/-- escalation.py `calculate_days_overdue`. -/
def calculate_days_overdue (today : Int) (due_date : Option Int) : Int :=
  match due_date with
  | none => 0
  | some due => max 0 (today - due)

/-- The if/elif ladder of `calculate_escalation_level` as a function of the
computed days-overdue value. -/
def escalation_level_of_days (days_overdue : Int) : Int :=
  if days_overdue = 0 then 0
  else if days_overdue = 1 then 1
  else if days_overdue = 2 then 2
  else if days_overdue ≤ 4 then 3
  else if days_overdue ≤ 6 then 5
  else 7

/-- escalation.py `calculate_escalation_level`. -/
def calculate_escalation_level (today : Int) (task : Task) : Int :=
  escalation_level_of_days (calculate_days_overdue today task.due_date)

/-- escalation.py `should_send_individual_notification`. -/
def should_send_individual_notification (today : Int) (task : Task) : Bool :=
  3 ≤ calculate_escalation_level today task

/-- escalation.py `get_escalation_message`. -/
def get_escalation_message (level : Int) : String :=
  if level = 3 then "3 days overdue"
  else if level = 5 then "5 days overdue - should I delegate or kill it?"
  else if level = 7 then "7+ days overdue - removing from active list unless you respond"
  else toString level ++ " days overdue"

/-- One step of the `defaultdict(list)` grouping loop: append `t` to the
group keyed `L`, creating the key at the end if absent (Python dicts keep
insertion order). -/
def insertGroup (acc : List (Int × List Task)) (L : Int) (t : Task) :
    List (Int × List Task) :=
  match acc with
  | [] => [(L, [t])]
  | (k, g) :: rest =>
    if k = L then (k, g ++ [t]) :: rest else (k, g) :: insertGroup rest L t

/-- The body of the grouping loop: compute the task's level and append the
task to that level's group when the level is at least 3. -/
def groupStep (today : Int) (acc : List (Int × List Task)) (t : Task) :
    List (Int × List Task) :=
  let level := calculate_escalation_level today t
  if 3 ≤ level then insertGroup acc level t else acc

/-- escalation.py `group_tasks_by_escalation`: group by level, keeping only
tasks at level ≥ 3. -/
def group_tasks_by_escalation (today : Int) (tasks : List Task) :
    List (Int × List Task) :=
  tasks.foldl (groupStep today) []

/-- escalation.py `should_consolidate`. -/
def should_consolidate (tasks_at_level : List Task) : Bool :=
  3 ≤ tasks_at_level.length

/-- escalation.py `get_tasks_needing_notification`: the DB query filters the
`tasks` table on assignee, status and a non-null due date; the list
comprehension then keeps tasks at escalation level ≥ 3.  The table is
modelled as the list `db` of its rows. -/
def get_tasks_needing_notification (today : Int) (db : List Task)
    (assignee : String := "ivan") : List Task :=
  let tasks := db.filter fun t =>
    t.assignee == some assignee && t.status != "done" && t.due_date.isSome
  tasks.filter fun t => should_send_individual_notification today t

/-! ## notification_config.py -/

def THRESHOLD_EXEMPT_TRIGGERS : List String := ["deadline_warning", "overdue"]

def DEFAULT_TRIGGERS : List (String × Bool) :=
  [("deadline_warning", true), ("overdue", true), ("assigned", true),
   ("status_critical", true), ("mentioned", true), ("comment_on_owned", false),
   ("blocker_resolved", true)]

structure NotificationConfig where
  mode : String := "focus"
  threshold : Int := 500
  triggers : List (String × Bool) := DEFAULT_TRIGGERS
  deriving Repr, DecidableEq

/-- notification_config.py `NotificationConfig.is_trigger_enabled`
(`triggers.get(trigger, False)`). -/
def NotificationConfig.is_trigger_enabled (c : NotificationConfig)
    (trigger : String) : Bool :=
  (c.triggers.lookup trigger).getD false

/-! ## notification_filter.py -/

/-- notification_filter.py `NotificationFilter.should_notify`. -/
def should_notify (config : NotificationConfig) (event : Event) (task : Task) :
    Bool :=
  let trigger := event.trigger.value
  if config.mode = "off" then false
  else if ¬ config.is_trigger_enabled trigger then false
  else if trigger ∉ THRESHOLD_EXEMPT_TRIGGERS ∧ task.score < config.threshold then
    false
  else if event.dedupe_key ∈ task.notification_state.dedupe_keys then false
  else true

/-! ## notification_state.py -/

/-- Python `l[-n:]`: the last `n` elements, in order. -/
def takeLast (n : Nat) (l : List α) : List α :=
  (l.reverse.take n).reverse

/-- notification_state.py `update_notification_state` ("commit"). -/
def update_notification_state (today : Int) (task : Task) (event : Event) :
    Task :=
  let state := task.notification_state
  let dedupe_keys := state.dedupe_keys ++ [event.dedupe_key]
  let state := { state with dedupe_keys := takeLast 50 dedupe_keys }
  let state :=
    if event.trigger = .deadline_warning then
      { state with last_deadline_notified := some event.fingerprint }
    else if event.trigger = .overdue then
      { state with last_overdue_notified := some (toString today) }
    else state
  let state :=
    { state with
        prev_status := some task.status
        prev_assignee := task.assignee
        prev_blocked_by := task.blocked_by }
  { task with notification_state := state }

/-- notification_state.py `update_prev_state_only` ("touch"). -/
def update_prev_state_only (task : Task) : Task :=
  { task with
      notification_state :=
        { task.notification_state with
            prev_status := some task.status
            prev_assignee := task.assignee
            prev_blocked_by := task.blocked_by } }

/-! ## event_detector.py (polling checks) -/

def CRITICAL_STATUSES : List String := ["blocked", "urgent", "critical"]

/-- event_detector.py `EventDetector._check_deadline`. -/
def check_deadline (today : Int) (task : Task) (state : NotificationState) :
    Option Event :=
  match task.due_date with
  | none => none
  | some due =>
    let days_until := due - today
    let last_notified := state.last_deadline_notified
    if days_until = 0 ∧ last_notified ≠ some "2h" then
      some { trigger := .deadline_warning, task_id := task.id,
             fingerprint := "2h",
             context := [("due_date", .str (toString due)),
                         ("urgency", .str "today")] }
    else if days_until = 1 ∧ last_notified = none then
      some { trigger := .deadline_warning, task_id := task.id,
             fingerprint := "24h",
             context := [("due_date", .str (toString due)),
                         ("urgency", .str "tomorrow")] }
    else none

/-- event_detector.py `EventDetector._check_overdue`. -/
def check_overdue (today : Int) (task : Task) (state : NotificationState) :
    Option Event :=
  match task.due_date with
  | none => none
  | some due =>
    if today ≤ due then none
    else if state.last_overdue_notified = some (toString today) then none
    else
      some { trigger := .overdue, task_id := task.id,
             fingerprint := "overdue:" ++ toString today,
             context := [("due_date", .str (toString due)),
                         ("days_overdue", .num (today - due))] }

/-- event_detector.py `EventDetector._check_status_critical`.  Note: the
current status is lowercased, the stored `prev_status` is compared raw. -/
def check_status_critical (task : Task) (state : NotificationState) :
    Option Event :=
  let prev_status := state.prev_status
  let current_status := if task.status = "" then "" else strLower task.status
  if current_status ∈ CRITICAL_STATUSES ∧ prev_status ≠ some current_status then
    some { trigger := .status_critical, task_id := task.id,
           fingerprint := "status=" ++ current_status,
           context := [("new_status", .str current_status),
                       ("prev_status",
                        match prev_status with
                        | some s => .str s
                        | none => .null)] }
  else none

/-- event_detector.py `EventDetector._check_assigned`. -/
def check_assigned (task : Task) (state : NotificationState) : Option Event :=
  let prev_assignee := state.prev_assignee
  let current_assignee := task.assignee
  if current_assignee = some "ivan" ∧ prev_assignee ≠ some "ivan" then
    some { trigger := .assigned, task_id := task.id,
           fingerprint := "assignee=ivan",
           context := [("prev_assignee",
                        match prev_assignee with
                        | some s => .str s
                        | none => .null)] }
  else none

/-- event_detector.py `EventDetector._check_blocker_resolved`. -/
def check_blocker_resolved (task : Task) (state : NotificationState) :
    Option Event :=
  let prev_blocked_by := state.prev_blocked_by
  let current_blocked_by := task.blocked_by
  if ¬ prev_blocked_by.isEmpty ∧ current_blocked_by.isEmpty then
    some { trigger := .blocker_resolved, task_id := task.id,
           fingerprint := "unblocked",
           context := [("resolved_blockers",
                        .arr (prev_blocked_by.map JValue.str))] }
  else none

/-- event_detector.py `EventDetector.detect_from_sync`: run the five checks
in order and collect the events. -/
def detect_from_sync (today : Int) (task : Task) : List Event :=
  let state := task.notification_state
  (check_deadline today task state).toList ++
  (check_overdue today task state).toList ++
  (check_status_critical task state).toList ++
  (check_assigned task state).toList ++
  (check_blocker_resolved task state).toList

/-! ## event_detector.py (webhook entry point)

The payload walkers run in `Except String`; `.error` models a raised Python
exception.  Statements are evaluated in source order, so an expression that
raises before the event is built raises here too.  Binding order and
`or`-short-circuiting follow the source lines exactly. -/

/-- event_detector.py `EventDetector._parse_github_webhook`. -/
def parse_github_webhook (event_type : String) (payload : JValue) :
    Except String (Option Event) := do
  if event_type = "issue_comment" then
    let action ← pyGetOpt payload "action"
    if action == JValue.str "created" then
      let comment ← pyGet payload "comment" (.obj [])
      let issue ← pyGet payload "issue" (.obj [])
      let number ← pyGetOpt issue "number"
      let task_id := "github:" ++ number.pyStr
      let user ← pyGet comment "user" (.obj [])
      let commenter ← pyGet user "login" (.str "unknown")
      let body ← pyGet comment "body" (.str "")
      let mentionA ← pyIn "@ivanivanka" body
      let mention ←
        if mentionA then pure true
        else do
          let bodyLower ← pyLower body
          pyIn "ivan" bodyLower
      if mention then
        let cid ← pyGetOpt comment "id"
        let preview ← pySlice100 body
        return some { trigger := .mentioned, task_id := task_id,
                      fingerprint := "comment_id=" ++ cid.pyStr,
                      context := [("commenter", commenter),
                                  ("body_preview", preview)] }
      else
        let assignee ← pyGet issue "assignee" (.obj [])
        if assignee.truthy then
          let login ← pyGetOpt assignee "login"
          if login == JValue.str "ivanivanka" then
            let cid ← pyGetOpt comment "id"
            let preview ← pySlice100 body
            return some { trigger := .comment_on_owned, task_id := task_id,
                          fingerprint := "comment_id=" ++ cid.pyStr,
                          context := [("commenter", commenter),
                                      ("body_preview", preview)] }
          else
            return none
        else
          return none
    else
      return none
  else
    return none

/-- event_detector.py `EventDetector._parse_clickup_webhook`. -/
def parse_clickup_webhook (event_type : String) (payload : JValue) :
    Except String (Option Event) := do
  let tid1 ← pyGetOpt payload "task_id"
  let task_id_raw ←
    if tid1.truthy then pure tid1
    else do
      let tsk ← pyGet payload "task" (.obj [])
      pyGetOpt tsk "id"
  if ¬ task_id_raw.truthy then
    return none
  else
    let task_id := "clickup:" ++ task_id_raw.pyStr
    if event_type = "taskCommentPosted" then
      let history ← pyGet payload "history_items" (.arr [.obj []])
      if history.truthy then
        let head ← pyIndex0 history
        let comment_data ← pyGet head "comment" (.obj [])
        let user ← pyGet comment_data "user" (.obj [])
        let commenter ← pyGet user "username" (.str "unknown")
        let text ← pyGet comment_data "text_content" (.str "")
        let comment_id ← pyGet comment_data "id" (.str "unknown")
        let textLowerA ← pyLower text
        let mentionA ← pyIn "@ivan" textLowerA
        let mention ←
          if mentionA then pure true
          else do
            let textLowerB ← pyLower text
            pyIn "ivan" textLowerB
        if mention then
          let preview ← pySlice100 text
          return some { trigger := .mentioned, task_id := task_id,
                        fingerprint := "comment_id=" ++ comment_id.pyStr,
                        context := [("commenter", commenter),
                                    ("body_preview", preview)] }
        else
          let preview ← pySlice100 text
          return some { trigger := .comment_on_owned, task_id := task_id,
                        fingerprint := "comment_id=" ++ comment_id.pyStr,
                        context := [("commenter", commenter),
                                    ("body_preview", preview)] }
      else
        return none
    else
      return none

/-- event_detector.py `EventDetector.parse_webhook_event`. -/
def parse_webhook_event (source event_type : String) (payload : JValue) :
    Except String (Option Event) :=
  if source = "github" then parse_github_webhook event_type payload
  else if source = "clickup" then parse_clickup_webhook event_type payload
  else pure none

/-! ## Escalation dispatch (notifier.py / slack_blocks.py)

The dispatcher is modelled as the list of messages it hands to the send
boundary.  `Msg.individual` is one `send_escalation_notification` DM;
`Msg.grouped` is one consolidated message, carrying the ids of the ≤ 10
listed tasks (the blocks render title/url/due for each) and the count shown
in the trailing "...and N more" context line when present. -/

inductive Msg where
  | individual (task_id : String) (escalation_level : Int)
  | grouped (escalation_level : Int) (shown : List String) (more : Option Nat)
  deriving Repr, DecidableEq

/-- notifier.py `SlackNotifier.send_escalation_notification`: re-checks the
level and skips tasks below 3; otherwise posts one DM. -/
def send_escalation_notification (today : Int) (task : Task) : List Msg :=
  let level := calculate_escalation_level today task
  if level < 3 then []
  else [.individual task.id level]

/-- notifier.py `SlackNotifier.send_grouped_escalation` together with
slack_blocks.py `format_grouped_escalation`: fewer than 3 tasks fall back to
individual sends; otherwise one message lists `tasks_data[:10]` and appends
"...and N more" when more than 10. -/
def send_grouped_escalation (today : Int) (tasks : List Task)
    (escalation_level : Int) : List Msg :=
  if tasks.length < 3 then
    tasks.flatMap (send_escalation_notification today)
  else
    [.grouped escalation_level ((tasks.take 10).map Task.id)
      (if 10 < tasks.length then some (tasks.length - 10) else none)]

/-- notifier.py `SlackNotifier.send_escalation_notifications`: fetch, group,
then consolidate levels with ≥ 3 tasks and send the rest individually. -/
def send_escalation_notifications (today : Int) (db : List Task) : List Msg :=
  let tasks := get_tasks_needing_notification today db
  if tasks.isEmpty then []
  else
    let grouped := group_tasks_by_escalation today tasks
    grouped.flatMap fun lg =>
      if should_consolidate lg.2 then
        send_grouped_escalation today lg.2 lg.1
      else
        lg.2.flatMap (send_escalation_notification today)

/-! ## Helper observers used by the theorems -/

/-- The tasks that belong in level `k`'s group: level at least 3 and equal
to `k`. -/
def atLevel (today k : Int) (t : Task) : Bool :=
  decide (3 ≤ calculate_escalation_level today t ∧
    calculate_escalation_level today t = k)

/-- Association lookup on the grouping (Python `grouped[level]`). -/
def lookupG (k : Int) : List (Int × List Task) → Option (List Task)
  | [] => none
  | (k2, g) :: rest => if k2 = k then some g else lookupG k rest

/-- The keys of the grouping dict, in insertion order. -/
def keysG (acc : List (Int × List Task)) : List Int :=
  acc.map Prod.fst

/-- Number of consolidated messages at a given escalation level. -/
def countGroupedAt (msgs : List Msg) (L : Int) : Nat :=
  msgs.countP fun m =>
    match m with
    | .grouped l _ _ => decide (l = L)
    | _ => false

/-- Number of individual messages for a given task id. -/
def countIndividualFor (msgs : List Msg) (id : String) : Nat :=
  msgs.countP fun m =>
    match m with
    | .individual i _ => decide (i = id)
    | _ => false

/-- The trigger of a successfully parsed webhook event, when there is one. -/
def resultTrigger : Except String (Option Event) → Option EventType
  | .ok (some e) => some e.trigger
  | _ => none

/-- My own `isOk` observer on `Except` ("the Python call did not raise"). -/
def exceptOk : Except String α → Bool
  | .ok _ => true
  | .error _ => false

def isObj : JValue → Bool
  | .obj _ => true
  | _ => false

def isStr : JValue → Bool
  | .str _ => true
  | _ => false

/-- On an object, the field `k` is absent or satisfies `p`. -/
def fieldOk (v : JValue) (k : String) (p : JValue → Bool) : Bool :=
  match v with
  | .obj fields =>
    match fields.lookup k with
    | some w => p w
    | none => true
  | _ => false

/-- Well-shapedness of a GitHub payload: every nested field the parser walks
has the JSON type the code expects (objects where `.get` is called, a string
body, an object-or-null assignee).  Missing fields are always allowed. -/
def githubWellShaped (payload : JValue) : Bool :=
  isObj payload &&
  fieldOk payload "comment" (fun c =>
    isObj c && fieldOk c "user" isObj && fieldOk c "body" isStr) &&
  fieldOk payload "issue" (fun i =>
    isObj i && fieldOk i "assignee" (fun a => isObj a || a == JValue.null))

/-- Well-shapedness of a ClickUp payload: the `task` field (if present) is an
object, and `history_items` (if present) is a list whose head, if any, is an
object with an object comment, object user and string text. -/
def clickupWellShaped (payload : JValue) : Bool :=
  isObj payload &&
  fieldOk payload "task" isObj &&
  fieldOk payload "history_items" (fun h =>
    match h with
    | .arr [] => true
    | .arr (x :: _) =>
      isObj x && fieldOk x "comment" (fun c =>
        isObj c && fieldOk c "user" isObj && fieldOk c "text_content" isStr)
    | _ => false)

/-- A GitHub `issue_comment` payload with every field the parser reads,
built from its primitive parts. -/
def mkGithubCommentPayload (number : Int) (commentId : Int)
    (commenter body : String) (assigneeLogin : Option String) : JValue :=
  .obj [("action", .str "created"),
        ("comment", .obj [("id", .num commentId),
                          ("user", .obj [("login", .str commenter)]),
                          ("body", .str body)]),
        ("issue", .obj [("number", .num number),
                        ("assignee",
                         match assigneeLogin with
                         | some l => .obj [("login", .str l)]
                         | none => .null)])]

/-- A ClickUp `taskCommentPosted` payload with every field the parser reads. -/
def mkClickupCommentPayload (taskId commentId commenter text : String) :
    JValue :=
  .obj [("task_id", .str taskId),
        ("history_items",
         .arr [.obj [("comment",
                      .obj [("id", .str commentId),
                            ("user", .obj [("username", .str commenter)]),
                            ("text_content", .str text)])]])]

/-- An overdue-trigger event with a numbered fingerprint, used to drive many
commits through one task's ledger. -/
def numberedEvent (i : Nat) : Event :=
  { trigger := .overdue, task_id := "clickup:1", fingerprint := "f" ++ toString i }

/-- One later commit on a task: the task's mutable fields at commit time
(`fields`) together with the accepted event; the notification state is
carried over from the previous commit, exactly as the mutation in the source
threads it through the task record. -/
structure CommitStep where
  today : Int := 0
  fields : Task := {}
  event : Event

/-- Replay one commit: the task now shows `c.fields`, with the accumulated
notification state, and `update_notification_state` runs on it. -/
def applyCommit (s : Task) (c : CommitStep) : Task :=
  update_notification_state c.today
    { c.fields with notification_state := s.notification_state } c.event

/-! # Theorems -/

/-! ## Shared helper lemmas -/

/-- Characterization of the filter: worked out once, shared by the claims
about `should_notify`. -/
theorem should_notify_iff (c : NotificationConfig) (e : Event) (t : Task) :
    should_notify c e t = true ↔
      (c.mode ≠ "off" ∧ c.is_trigger_enabled e.trigger.value = true ∧
       (e.trigger.value ∈ THRESHOLD_EXEMPT_TRIGGERS ∨ c.threshold ≤ t.score) ∧
       e.dedupe_key ∉ t.notification_state.dedupe_keys) := by
  simp only [should_notify]
  by_cases h1 : c.mode = "off" <;>
    by_cases h2 : c.is_trigger_enabled e.trigger.value = true <;>
    by_cases h3 : e.trigger.value ∈ THRESHOLD_EXEMPT_TRIGGERS <;>
    by_cases h4 : t.score < c.threshold <;>
    by_cases h5 : e.dedupe_key ∈ t.notification_state.dedupe_keys <;>
    (simp [h1, h2, h3, h4, h5]; try omega)

theorem should_notify_false_of_mem (c : NotificationConfig) (e : Event)
    (t : Task) (h : e.dedupe_key ∈ t.notification_state.dedupe_keys) :
    should_notify c e t = false := by
  simp only [should_notify]
  by_cases h1 : c.mode = "off" <;>
    by_cases h2 : c.is_trigger_enabled e.trigger.value = true <;>
    by_cases h3 : e.trigger.value ∈ THRESHOLD_EXEMPT_TRIGGERS <;>
    by_cases h4 : t.score < c.threshold <;>
    simp [h1, h2, h3, h4, h]

/-! ## C3: the filter's decision -/

/-- C3: `should_notify(event, task)` returns false exactly when the mode is
"off", or the event's trigger is disabled in the config, or the trigger is
not threshold-exempt and the task's score is strictly below the threshold,
or the event's dedupe key is already in the task's ledger; in every other
case it returns true, and a score equal to the threshold passes the
threshold check. -/
theorem claim_C3_should_notify_decision (c : NotificationConfig) (e : Event)
    (t : Task) :
    (should_notify c e t = false ↔
      (c.mode = "off" ∨ c.is_trigger_enabled e.trigger.value = false ∨
       (e.trigger.value ∉ THRESHOLD_EXEMPT_TRIGGERS ∧ t.score < c.threshold) ∨
       e.dedupe_key ∈ t.notification_state.dedupe_keys)) ∧
    (t.score = c.threshold →
      ¬ (e.trigger.value ∉ THRESHOLD_EXEMPT_TRIGGERS ∧ t.score < c.threshold)) := by
  constructor
  · simp only [should_notify]
    by_cases h1 : c.mode = "off" <;>
      by_cases h2 : c.is_trigger_enabled e.trigger.value = true <;>
      by_cases h3 : e.trigger.value ∈ THRESHOLD_EXEMPT_TRIGGERS <;>
      by_cases h4 : t.score < c.threshold <;>
      by_cases h5 : e.dedupe_key ∈ t.notification_state.dedupe_keys <;>
      simp [h1, h2, h3, h4, h5]
  · rintro hsc ⟨-, hlt⟩
    omega

/-- Witness for C3 at a concrete config, event and task: a score exactly at
the threshold is not blocked by the threshold clause. -/
theorem claim_C3_witness :
    ¬ (({ trigger := .assigned, task_id := "t", fingerprint := "f" } : Event).trigger.value
          ∉ THRESHOLD_EXEMPT_TRIGGERS ∧
       ({ score := 500 } : Task).score < ({} : NotificationConfig).threshold) :=
  (claim_C3_should_notify_decision {}
    { trigger := .assigned, task_id := "t", fingerprint := "f" }
    { score := 500 }).2 rfl

/-! ## C4: the escalation ladder -/

/-- C4: `days_overdue` is `max 0 (today - due)` (0 with no date), the ladder
maps 0/1/2/3-4/5-6/≥7 days to levels 0/1/2/3/5/7, is monotone non-decreasing
in days-overdue, and takes exactly the values 0, 1, 2, 3, 5, 7. -/
theorem claim_C4_escalation_ladder (today : Int) :
    (∀ due : Int, calculate_days_overdue today (some due) = max 0 (today - due)) ∧
    calculate_days_overdue today none = 0 ∧
    escalation_level_of_days 0 = 0 ∧
    escalation_level_of_days 1 = 1 ∧
    escalation_level_of_days 2 = 2 ∧
    escalation_level_of_days 3 = 3 ∧
    escalation_level_of_days 4 = 3 ∧
    escalation_level_of_days 5 = 5 ∧
    escalation_level_of_days 6 = 5 ∧
    (∀ n : Int, 7 ≤ n → escalation_level_of_days n = 7) ∧
    (∀ m n : Int, 0 ≤ m → m ≤ n →
      escalation_level_of_days m ≤ escalation_level_of_days n) ∧
    (∀ n : Int, escalation_level_of_days n ∈ ([0, 1, 2, 3, 5, 7] : List Int)) ∧
    (∀ t : Task, calculate_escalation_level today t =
      escalation_level_of_days (calculate_days_overdue today t.due_date)) := by
  refine ⟨fun due => rfl, rfl, by decide, by decide, by decide, by decide,
    by decide, by decide, by decide, ?_, ?_, ?_, fun t => rfl⟩
  · intro n hn
    simp only [escalation_level_of_days]
    split_ifs <;> omega
  · intro m n hm hmn
    simp only [escalation_level_of_days]
    split_ifs <;> omega
  · intro n
    simp only [escalation_level_of_days]
    split_ifs <;> simp

/-- Witness for C4 at concrete inputs: three days overdue, the ≥ 7 band, a
monotonicity instance, and a membership instance. -/
theorem claim_C4_witness :
    calculate_days_overdue 0 (some (-3)) = max 0 (0 - (-3)) ∧
    escalation_level_of_days 8 = 7 ∧
    escalation_level_of_days 2 ≤ escalation_level_of_days 5 ∧
    escalation_level_of_days 4 ∈ ([0, 1, 2, 3, 5, 7] : List Int) := by
  obtain ⟨h1, h2, h3, h4, h5, h6, h7, h8, h9, h10, h11, h12, h13⟩ :=
    claim_C4_escalation_ladder 0
  exact ⟨h1 (-3), h10 8 (by norm_num), h11 2 5 (by norm_num) (by norm_num), h12 4⟩

/-! ## C5: urgency -/

/-- C5: `urgency` is 1 with no date, 5 strictly before today, 4 today, 3
within the next 7 days inclusive, 1 otherwise; it only takes the values
1, 3, 4, 5, and the ordering chain at today-1, today, today+3, today+7,
today+8 holds. -/
theorem claim_C5_urgency (today : Int) :
    calculate_urgency today none = 1 ∧
    (∀ d : Int, d < today → calculate_urgency today (some d) = 5) ∧
    calculate_urgency today (some today) = 4 ∧
    (∀ d : Int, today < d → d ≤ today + 7 → calculate_urgency today (some d) = 3) ∧
    (∀ d : Int, today + 7 < d → calculate_urgency today (some d) = 1) ∧
    (∀ d : Option Int, calculate_urgency today d ∈ ([1, 3, 4, 5] : List Int)) ∧
    calculate_urgency today (some (today - 1)) > calculate_urgency today (some today) ∧
    calculate_urgency today (some today) > calculate_urgency today (some (today + 3)) ∧
    calculate_urgency today (some (today + 3)) = calculate_urgency today (some (today + 7)) ∧
    calculate_urgency today (some (today + 7)) > calculate_urgency today (some (today + 8)) := by
  have hcase : ∀ d : Int, calculate_urgency today (some d) =
      if d - today < 0 then 5 else if d - today = 0 then 4
      else if d - today ≤ 7 then 3 else 1 := fun d => rfl
  refine ⟨rfl, ?_, ?_, ?_, ?_, ?_, ?_, ?_, ?_, ?_⟩ <;>
    try intro d
  · rw [hcase]; split_ifs <;> omega
  · rw [hcase]; split_ifs <;> omega
  · intro h1 h2; rw [hcase]; split_ifs <;> omega
  · intro h1; rw [hcase]; split_ifs <;> omega
  · rcases d with _ | d
    · simp [calculate_urgency]
    · rw [hcase]; split_ifs <;> simp
  · rw [hcase, hcase]; split_ifs <;> omega
  · rw [hcase, hcase]; split_ifs <;> omega
  · rw [hcase, hcase]; split_ifs <;> omega
  · rw [hcase, hcase]; split_ifs <;> omega

/-- Witness for C5 at concrete inputs (today = 0). -/
theorem claim_C5_witness :
    calculate_urgency 0 (some (-1)) = 5 ∧
    calculate_urgency 0 (some 3) = 3 ∧
    calculate_urgency 0 (some 8) = 1 ∧
    calculate_urgency 0 (some 5) ∈ ([1, 3, 4, 5] : List Int) := by
  obtain ⟨h1, h2, h3, h4, h5, h6, h7, h8, h9, h10⟩ := claim_C5_urgency 0
  exact ⟨h2 (-1) (by norm_num), h4 3 (by norm_num) (by norm_num),
    h5 8 (by norm_num), h6 (some 5)⟩

/-! ## C9: the escalation fetch -/

/-- C9: `get_tasks_needing_notification(db, assignee)` returns exactly the
tasks assigned to the given user, not done, with a due date, at escalation
level ≥ 3; tasks failing any of these never get individual escalations. -/
theorem claim_C9_escalation_fetch (today : Int) (db : List Task) (a : String)
    (t : Task) :
    t ∈ get_tasks_needing_notification today db a ↔
      (t ∈ db ∧ t.assignee = some a ∧ t.status ≠ "done" ∧ t.due_date.isSome ∧
       3 ≤ calculate_escalation_level today t) := by
  simp only [get_tasks_needing_notification, should_send_individual_notification,
    List.mem_filter, Bool.and_eq_true, beq_iff_eq, bne_iff_ne, ne_eq,
    decide_eq_true_eq]
  tauto

/-! ## C10: the score floor -/

/-- C10: every task scores at least 100 (urgency is at least 1, every other
addend non-negative), so with a threshold of 100 or lower and the score
field computed by the scorer, the threshold clause never blocks and the
filter's decision reduces to mode, trigger-enabled and dedupe. -/
theorem claim_C10_score_floor (now today : Int) (t : Task) :
    100 ≤ calculate_score now today t ∧
    (∀ (c : NotificationConfig) (e : Event),
      c.threshold ≤ 100 → t.score = calculate_score now today t →
      (should_notify c e t = true ↔
        (c.mode ≠ "off" ∧ c.is_trigger_enabled e.trigger.value = true ∧
         e.dedupe_key ∉ t.notification_state.dedupe_keys))) := by
  have hu : 1 ≤ calculate_urgency today t.due_date := by
    rcases t.due_date with _ | d
    · simp [calculate_urgency]
    · show (1 : Int) ≤ if d - today < 0 then 5 else if d - today = 0 then 4
        else if d - today ≤ 7 then 3 else 1
      split_ifs <;> omega
  have hb : (0 : Int) ≤ (t.is_blocking.length : Int) := Int.natCast_nonneg _
  have hs : 100 ≤ calculate_score now today t := by
    simp only [calculate_score]
    rcases t.last_activity with _ | la <;> simp only [] <;> split_ifs <;> omega
  refine ⟨hs, fun c e hth hsc => ?_⟩
  rw [should_notify_iff]
  constructor
  · rintro ⟨h1, h2, -, h4⟩
    exact ⟨h1, h2, h4⟩
  · rintro ⟨h1, h2, h4⟩
    exact ⟨h1, h2, Or.inr (by omega), h4⟩

/-- Witness for C10: a default task scored by the scorer passes the filter
under a threshold of 100 with an enabled, non-exempt trigger. -/
theorem claim_C10_witness :
    should_notify { threshold := 100 }
      { trigger := .assigned, task_id := "t", fingerprint := "f" }
      { score := calculate_score 0 0 {} } = true := by
  have h := (claim_C10_score_floor 0 0 ({ score := calculate_score 0 0 {} } : Task)).2
    { threshold := 100 } { trigger := .assigned, task_id := "t", fingerprint := "f" }
    (by norm_num) rfl
  exact h.mpr ⟨by decide, by decide, by decide⟩

/-! ## C1: dedupe keys and the bounded ledger -/

theorem dedupe_after_commit (today : Int) (t : Task) (e : Event) :
    (update_notification_state today t e).notification_state.dedupe_keys =
      takeLast 50 (t.notification_state.dedupe_keys ++ [e.dedupe_key]) := by
  simp only [update_notification_state]
  split_ifs <;> rfl

theorem takeLast_reverse (n : Nat) (l : List α) :
    (takeLast n l).reverse = l.reverse.take n := by
  simp [takeLast]

theorem mem_take_cons_of_mem_take {k x : α} {m : List α} {n : Nat}
    (h : k ∈ m.take n) : k ∈ (x :: m).take (n + 1) := by
  rw [List.take_succ_cons]
  exact List.mem_cons_of_mem _ h

/-- One commit pushes a key one position deeper from the tail of the ledger;
within the first 50 positions it survives the truncation. -/
theorem within_commit {l : List String} {x k : String} {n : Nat}
    (h : k ∈ l.reverse.take n) (hn : n + 1 ≤ 50) :
    k ∈ (takeLast 50 (l ++ [x])).reverse.take (n + 1) := by
  rw [takeLast_reverse, List.reverse_append]
  simp only [List.reverse_cons, List.reverse_nil, List.nil_append,
    List.singleton_append]
  rw [List.take_take, min_eq_left hn]
  exact mem_take_cons_of_mem_take h

theorem applyCommit_dedupe (s : Task) (c : CommitStep) :
    (applyCommit s c).notification_state.dedupe_keys =
      takeLast 50 (s.notification_state.dedupe_keys ++ [c.event.dedupe_key]) := by
  simp only [applyCommit]
  rw [dedupe_after_commit]

theorem within_foldl (steps : List CommitStep) : ∀ (t : Task) (k : String) (n : Nat),
    k ∈ t.notification_state.dedupe_keys.reverse.take n →
    n + steps.length ≤ 50 →
    k ∈ (steps.foldl applyCommit t).notification_state.dedupe_keys.reverse.take
      (n + steps.length) := by
  induction steps with
  | nil =>
    intro t k n h _
    simpa using h
  | cons s ss ih =>
    intro t k n h hle
    rw [List.foldl_cons]
    have hlen : n + (s :: ss).length = (n + 1) + ss.length := by
      simp [List.length_cons]
      omega
    have h1 : k ∈ (applyCommit t s).notification_state.dedupe_keys.reverse.take (n + 1) := by
      rw [applyCommit_dedupe]
      refine within_commit h ?_
      simp [List.length_cons] at hle
      omega
    rw [hlen]
    refine ih (applyCommit t s) k (n + 1) h1 ?_
    simp [List.length_cons] at hle
    omega

theorem mem_of_mem_reverse_take {k : α} {l : List α} {n : Nat}
    (h : k ∈ l.reverse.take n) : k ∈ l :=
  List.mem_reverse.mp (List.take_subset n l.reverse h)

theorem key_in_first (l : List String) (x : String) :
    x ∈ (takeLast 50 (l ++ [x])).reverse.take 1 := by
  rw [takeLast_reverse, List.reverse_append]
  simp only [List.reverse_cons, List.reverse_nil, List.nil_append,
    List.singleton_append]
  rw [List.take_take, min_eq_left (by omega : (1 : Nat) ≤ 50)]
  simp

/-- C1 (amended): once `update_notification_state` records an event's dedupe
key, `should_notify` returns false for any event with the identical
(trigger, task_id, fingerprint) against any task carrying the resulting
notification state — whatever its score or other fields — and this stays
true across any sequence of at most 49 further commits on that task, i.e.
for as long as the key is still inside the 50-entry ledger. -/
theorem claim_C1_dedupe_blocked (c : NotificationConfig) (today : Int)
    (t : Task) (e e' : Event) (steps : List CommitStep) (t' : Task)
    (hlen : steps.length ≤ 49)
    (htr : e'.trigger = e.trigger) (hid : e'.task_id = e.task_id)
    (hfp : e'.fingerprint = e.fingerprint)
    (hstate : t'.notification_state =
      (steps.foldl applyCommit (update_notification_state today t e)).notification_state) :
    should_notify c e' t' = false := by
  have hkey : e'.dedupe_key = e.dedupe_key := by
    simp [Event.dedupe_key, htr, hid, hfp]
  have h0 : e.dedupe_key ∈
      (update_notification_state today t e).notification_state.dedupe_keys.reverse.take 1 := by
    rw [dedupe_after_commit]
    exact key_in_first _ _
  have h1 := within_foldl steps (update_notification_state today t e) e.dedupe_key 1 h0
    (by omega)
  have h2 := mem_of_mem_reverse_take h1
  apply should_notify_false_of_mem
  rw [hkey, hstate]
  exact h2

/-- Witness for C1 at a concrete task, event and empty later-commit list. -/
theorem claim_C1_witness :
    should_notify {} (numberedEvent 0)
      (update_notification_state 0 {} (numberedEvent 0)) = false :=
  claim_C1_dedupe_blocked {} 0 {} (numberedEvent 0) (numberedEvent 0) []
    (update_notification_state 0 {} (numberedEvent 0))
    (by decide) rfl rfl rfl rfl

set_option maxRecDepth 4000 in
/-- C1 counterexample to the claim as stated: the key recorded for
`numberedEvent 0` is blocked right after its commit, but after 50 further
commits on the same task it has been evicted from the 50-entry ledger and
`should_notify` returns true again for the identical event, so a recorded
key is not permanently unrepeatable. -/
theorem claim_C1_counterexample :
    should_notify {} (numberedEvent 0)
      (update_notification_state 0 {} (numberedEvent 0)) = false ∧
    should_notify {} (numberedEvent 0)
      (((List.range 50).map
          (fun i => ({ event := numberedEvent (i + 1) } : CommitStep))).foldl
        applyCommit (update_notification_state 0 {} (numberedEvent 0))) = true := by
  constructor
  · decide
  · decide

/-! ## C2: status_critical and the case-normalization slip -/

/-- C2 (code-bug exhibit): `_check_status_critical` compares the *lowercased*
current status against the *raw* `prev_status` snapshot, while commit/touch
store the raw status.  A task whose status is the unchanged mixed-case
critical string "Blocked" therefore fires `status_critical` on the first
detection AND again after the snapshot is refreshed with
`update_prev_state_only` — the detector fires while the task merely remains
critical.  With the already-lowercase status "blocked" the refreshed
snapshot silences the second detection, as the claim describes. -/
theorem claim_C2_status_critical_refires :
    ((detect_from_sync 0 ({ id := "t1", status := "Blocked" } : Task)).map Event.trigger
      = [.status_critical]) ∧
    ((detect_from_sync 0
        (update_prev_state_only ({ id := "t1", status := "Blocked" } : Task))).map Event.trigger
      = [.status_critical]) ∧
    ((detect_from_sync 0
        (update_prev_state_only ({ id := "t1", status := "blocked" } : Task))).map Event.trigger
      = []) := by
  decide

/-! ## C6: grouping and consolidation -/

theorem lookupG_insertGroup (acc : List (Int × List Task)) (L : Int) (t : Task)
    (k : Int) :
    lookupG k (insertGroup acc L t) =
      if k = L then some (((lookupG L acc).getD []) ++ [t])
      else lookupG k acc := by
  induction acc with
  | nil =>
    by_cases h : k = L
    · subst h
      simp [insertGroup, lookupG]
    · simp [insertGroup, lookupG, h, Ne.symm h]
  | cons hd rest ih =>
    obtain ⟨k2, g⟩ := hd
    by_cases h1 : k2 = L
    · subst h1
      by_cases h2 : k = k2
      · subst h2
        simp [insertGroup, lookupG]
      · simp [insertGroup, lookupG, h2, Ne.symm h2]
    · by_cases h2 : k2 = k
      · subst h2
        simp [insertGroup, lookupG, h1]
      · simp [insertGroup, lookupG, h1, h2, ih]

theorem keysG_insertGroup (acc : List (Int × List Task)) (L : Int) (t : Task) :
    keysG (insertGroup acc L t) =
      if L ∈ keysG acc then keysG acc else keysG acc ++ [L] := by
  induction acc with
  | nil => simp [insertGroup, keysG]
  | cons hd rest ih =>
    obtain ⟨k2, g⟩ := hd
    by_cases h1 : k2 = L
    · subst h1
      simp [insertGroup, keysG]
    · have h1s : ¬ L = k2 := Ne.symm h1
      simp only [insertGroup, keysG, List.map_cons, if_neg h1] at ih ⊢
      rw [ih]
      by_cases h2 : L ∈ List.map Prod.fst rest
      · simp [List.mem_cons, h1s, h2]
      · simp [List.mem_cons, h1s, h2]

theorem keysG_nodup_insertGroup (acc : List (Int × List Task)) (L : Int)
    (t : Task) (h : (keysG acc).Nodup) :
    (keysG (insertGroup acc L t)).Nodup := by
  rw [keysG_insertGroup]
  split_ifs with hm
  · exact h
  · simp [List.nodup_append, h, hm]

theorem grouping_foldl_lookup_some (today : Int) (tasks : List Task) :
    ∀ (acc : List (Int × List Task)) (k : Int) (g : List Task),
      lookupG k acc = some g →
      lookupG k (tasks.foldl (groupStep today) acc) =
        some (g ++ tasks.filter (atLevel today k)) := by
  induction tasks with
  | nil =>
    intro acc k g h
    simpa using h
  | cons t ts ih =>
    intro acc k g h
    rw [List.foldl_cons, List.filter_cons]
    by_cases h3 : 3 ≤ calculate_escalation_level today t
    · by_cases hk : calculate_escalation_level today t = k
      · have h3k : (3 : Int) ≤ k := hk ▸ h3
        have hstep : groupStep today acc t = insertGroup acc k t := by
          simp [groupStep, hk, h3k]
        have hacc : lookupG k (insertGroup acc k t) = some (g ++ [t]) := by
          rw [lookupG_insertGroup]
          simp [h]
        have hp : atLevel today k t = true := by
          simp [atLevel, hk, h3k]
        rw [hstep, ih _ _ _ hacc]
        simp [hp]
      · have hstep : groupStep today acc t =
            insertGroup acc (calculate_escalation_level today t) t := by
          simp [groupStep, h3]
        have hacc : lookupG k
            (insertGroup acc (calculate_escalation_level today t) t) = some g := by
          rw [lookupG_insertGroup, if_neg (Ne.symm hk)]
          exact h
        have hp : atLevel today k t = false := by
          simp [atLevel, hk]
        rw [hstep, ih _ _ _ hacc]
        simp [hp]
    · have hstep : groupStep today acc t = acc := by
        simp [groupStep, h3]
      have hp : atLevel today k t = false := by
        simp [atLevel, h3]
      rw [hstep, ih _ _ _ h]
      simp [hp]

theorem grouping_foldl_lookup_none (today : Int) (tasks : List Task) :
    ∀ (acc : List (Int × List Task)) (k : Int),
      lookupG k acc = none →
      lookupG k (tasks.foldl (groupStep today) acc) =
        (if tasks.filter (atLevel today k) = [] then none
         else some (tasks.filter (atLevel today k))) := by
  induction tasks with
  | nil =>
    intro acc k h
    simpa using h
  | cons t ts ih =>
    intro acc k h
    rw [List.foldl_cons, List.filter_cons]
    by_cases h3 : 3 ≤ calculate_escalation_level today t
    · by_cases hk : calculate_escalation_level today t = k
      · have h3k : (3 : Int) ≤ k := hk ▸ h3
        have hstep : groupStep today acc t = insertGroup acc k t := by
          simp [groupStep, hk, h3k]
        have hacc : lookupG k (insertGroup acc k t) = some [t] := by
          rw [lookupG_insertGroup]
          simp [h]
        have hp : atLevel today k t = true := by
          simp [atLevel, hk, h3k]
        rw [hstep, grouping_foldl_lookup_some today ts _ _ _ hacc]
        simp [hp]
      · have hstep : groupStep today acc t =
            insertGroup acc (calculate_escalation_level today t) t := by
          simp [groupStep, h3]
        have hacc : lookupG k
            (insertGroup acc (calculate_escalation_level today t) t) = none := by
          rw [lookupG_insertGroup, if_neg (Ne.symm hk)]
          exact h
        have hp : atLevel today k t = false := by
          simp [atLevel, hk]
        rw [hstep, ih _ _ hacc]
        simp [hp]
    · have hstep : groupStep today acc t = acc := by
        simp [groupStep, h3]
      have hp : atLevel today k t = false := by
        simp [atLevel, h3]
      rw [hstep, ih _ _ h]
      simp [hp]

theorem grouping_keys_nodup_foldl (today : Int) (tasks : List Task) :
    ∀ acc, (keysG acc).Nodup →
      (keysG (tasks.foldl (groupStep today) acc)).Nodup := by
  induction tasks with
  | nil =>
    intro acc h
    simpa using h
  | cons t ts ih =>
    intro acc h
    rw [List.foldl_cons]
    apply ih
    by_cases h3 : 3 ≤ calculate_escalation_level today t
    · have hstep : groupStep today acc t =
          insertGroup acc (calculate_escalation_level today t) t := by
        simp [groupStep, h3]
      rw [hstep]
      exact keysG_nodup_insertGroup _ _ _ h
    · have hstep : groupStep today acc t = acc := by
        simp [groupStep, h3]
      rw [hstep]
      exact h

theorem lookupG_eq_of_mem (acc : List (Int × List Task)) (k : Int)
    (g : List Task) (hnd : (keysG acc).Nodup) (hm : (k, g) ∈ acc) :
    lookupG k acc = some g := by
  induction acc with
  | nil => simp at hm
  | cons hd rest ih =>
    obtain ⟨k2, g2⟩ := hd
    rcases List.mem_cons.mp hm with heq | hmem
    · obtain ⟨rfl, rfl⟩ := Prod.mk.injEq .. ▸ heq.symm
      simp [lookupG]
    · have hrest : (keysG rest).Nodup :=
        (List.nodup_cons.mp (by simpa [keysG] using hnd)).2
      have hk2 : k2 ≠ k := by
        intro hh
        subst hh
        have hin : k2 ∈ keysG rest := by
          have := List.mem_map_of_mem Prod.fst hmem
          simpa [keysG] using this
        exact (List.nodup_cons.mp (by simpa [keysG] using hnd)).1 hin
      simp only [lookupG, if_neg hk2]
      exact ih hrest hmem

theorem grouping_keys_nodup (today : Int) (tasks : List Task) :
    (keysG (group_tasks_by_escalation today tasks)).Nodup :=
  grouping_keys_nodup_foldl today tasks [] (by simp [keysG])

/-- Membership in the grouping is exactly: the group's list is the filter of
the input at that level, and it is non-empty. -/
theorem grouping_char (today : Int) (tasks : List Task) (L : Int)
    (g : List Task) (h : (L, g) ∈ group_tasks_by_escalation today tasks) :
    g = tasks.filter (atLevel today L) ∧ g ≠ [] := by
  have hnd := grouping_keys_nodup today tasks
  have hl : lookupG L (tasks.foldl (groupStep today) []) = some g :=
    lookupG_eq_of_mem _ _ _ hnd h
  have hn := grouping_foldl_lookup_none today tasks [] L (by simp [lookupG])
  rw [hl] at hn
  by_cases hf : tasks.filter (atLevel today L) = []
  · rw [if_pos hf] at hn
    exact absurd hn (by simp)
  · rw [if_neg hf] at hn
    have hg : g = tasks.filter (atLevel today L) := Option.some_inj.mp hn
    exact ⟨hg, by rw [hg]; exact hf⟩

theorem countP_flatMap (l : List α) (f : α → List β) (p : β → Bool) :
    (l.flatMap f).countP p = (l.map fun a => (f a).countP p).sum := by
  induction l with
  | nil => simp
  | cons a l ih => simp [List.flatMap_cons, List.countP_append, ih]

theorem countP_flatMap_zero (l : List α) (f : α → List β) (p : β → Bool)
    (h : ∀ a ∈ l, (f a).countP p = 0) : (l.flatMap f).countP p = 0 := by
  rw [countP_flatMap]
  apply List.sum_eq_zero
  intro x hx
  obtain ⟨a, ha, rfl⟩ := List.mem_map.mp hx
  exact h a ha

theorem send_individual_eq (today : Int) (t : Task)
    (h : 3 ≤ calculate_escalation_level today t) :
    send_escalation_notification today t =
      [.individual t.id (calculate_escalation_level today t)] := by
  simp only [send_escalation_notification]
  rw [if_neg (by omega : ¬ calculate_escalation_level today t < 3)]

theorem individuals_countP (today : Int) (g : List Task) (p : Msg → Bool)
    (hg : ∀ t ∈ g, 3 ≤ calculate_escalation_level today t) :
    (g.flatMap (send_escalation_notification today)).countP p =
      g.countP (fun t => p (.individual t.id (calculate_escalation_level today t))) := by
  induction g with
  | nil => simp
  | cons t ts ih =>
    have h1 := send_individual_eq today t (hg t (List.mem_cons_self t ts))
    have ihh := ih (fun x hx => hg x (List.mem_cons_of_mem _ hx))
    simp [List.flatMap_cons, List.countP_append, List.countP_cons, h1, ihh,
      Nat.add_comm]

theorem countP_id_eq_one (tasks : List Task) (t : Task)
    (hnd : (tasks.map Task.id).Nodup) (ht : t ∈ tasks) :
    tasks.countP (fun x => decide (x.id = t.id)) = 1 := by
  obtain ⟨l1, l2, rfl⟩ := List.append_of_mem ht
  rw [List.map_append, List.map_cons] at hnd
  obtain ⟨hnd1, hnd2, hdisj⟩ := List.nodup_append.mp hnd
  have hnotin2 : t.id ∉ l2.map Task.id := (List.nodup_cons.mp hnd2).1
  have hnotin1 : t.id ∉ l1.map Task.id :=
    fun hmem => hdisj hmem (List.mem_cons_self _ _)
  have c1 : l1.countP (fun x => decide (x.id = t.id)) = 0 := by
    rw [List.countP_eq_zero]
    intro a ha
    simp only [decide_eq_true_eq]
    intro hh
    exact hnotin1 (hh ▸ List.mem_map_of_mem Task.id ha)
  have c2 : l2.countP (fun x => decide (x.id = t.id)) = 0 := by
    rw [List.countP_eq_zero]
    intro a ha
    simp only [decide_eq_true_eq]
    intro hh
    exact hnotin2 (hh ▸ List.mem_map_of_mem Task.id ha)
  rw [List.countP_append, List.countP_cons, c1, c2]
  simp

theorem countP_id_in_group (today : Int) (tasks : List Task) (k : Int)
    (t : Task) (hnd : (tasks.map Task.id).Nodup)
    (ht : t ∈ tasks.filter (atLevel today k)) :
    (tasks.filter (atLevel today k)).countP (fun x => decide (x.id = t.id)) = 1 := by
  have httasks : t ∈ tasks := (List.mem_filter.mp ht).1
  have hone := countP_id_eq_one tasks t hnd httasks
  have hle : (tasks.filter (atLevel today k)).countP
      (fun x => decide (x.id = t.id)) ≤ 1 := by
    rw [List.countP_filter]
    calc tasks.countP (fun a => decide (a.id = t.id) && atLevel today k a)
        ≤ tasks.countP (fun x => decide (x.id = t.id)) :=
          List.countP_mono_left (fun a _ h => ((Bool.and_eq_true _ _).mp h).1)
      _ = 1 := hone
  have hge : 0 < (tasks.filter (atLevel today k)).countP
      (fun x => decide (x.id = t.id)) :=
    List.countP_pos_iff.mpr ⟨t, ht, by simp⟩
  omega

theorem individuals_grouped_count_zero (today : Int) (L : Int)
    (g : List Task) :
    countGroupedAt (g.flatMap (send_escalation_notification today)) L = 0 := by
  unfold countGroupedAt
  apply countP_flatMap_zero
  intro t _
  by_cases hlev : calculate_escalation_level today t < 3
  · simp [send_escalation_notification, hlev]
  · simp [send_escalation_notification, hlev, List.countP_cons]

theorem entry_grouped_count_zero (today : Int) (L : Int)
    (e : Int × List Task) (hne : e.1 ≠ L) :
    countGroupedAt
      (if should_consolidate e.2 then send_grouped_escalation today e.2 e.1
       else e.2.flatMap (send_escalation_notification today)) L = 0 := by
  by_cases hc : should_consolidate e.2 = true
  · rw [if_pos hc]
    have h3 : ¬ e.2.length < 3 := by
      simp [should_consolidate] at hc
      omega
    rw [send_grouped_escalation, if_neg h3]
    simp [countGroupedAt, List.countP_cons, hne]
  · rw [if_neg hc]
    exact individuals_grouped_count_zero today L e.2

theorem entry_individual_count_zero (today : Int) (id0 : String)
    (e : Int × List Task) (hlev : ∀ x ∈ e.2, 3 ≤ calculate_escalation_level today x)
    (hno : ∀ x ∈ e.2, x.id ≠ id0) :
    countIndividualFor
      (if should_consolidate e.2 then send_grouped_escalation today e.2 e.1
       else e.2.flatMap (send_escalation_notification today)) id0 = 0 := by
  by_cases hc : should_consolidate e.2 = true
  · rw [if_pos hc]
    have h3 : ¬ e.2.length < 3 := by
      simp [should_consolidate] at hc
      omega
    rw [send_grouped_escalation, if_neg h3]
    simp [countIndividualFor, List.countP_cons]
  · rw [if_neg hc]
    unfold countIndividualFor
    rw [individuals_countP today e.2 _ hlev]
    rw [List.countP_eq_zero]
    intro x hx
    simp [hno x hx]

/-- Per-cycle message counts, for any entry of the grouping: a level with at
least 3 tasks yields exactly one consolidated message (listing the first 10
task ids, with the "...and N more" count exactly when more than 10) and no
individual messages for its tasks; a level with fewer than 3 tasks yields
exactly one individual message per task and no consolidated message. -/
theorem dispatch_counts (today : Int) (tasks : List Task) (msgs : List Msg)
    (hnd : (tasks.map Task.id).Nodup) (L : Int) (g : List Task)
    (hg : (L, g) ∈ group_tasks_by_escalation today tasks)
    (hmsgs : msgs = (group_tasks_by_escalation today tasks).flatMap
      (fun lg => if should_consolidate lg.2 then
          send_grouped_escalation today lg.2 lg.1
        else lg.2.flatMap (send_escalation_notification today))) :
    (3 ≤ g.length →
      countGroupedAt msgs L = 1 ∧
      Msg.grouped L ((g.take 10).map Task.id)
          (if 10 < g.length then some (g.length - 10) else none) ∈ msgs ∧
      (∀ t ∈ g, countIndividualFor msgs t.id = 0)) ∧
    (g.length < 3 →
      countGroupedAt msgs L = 0 ∧
      (∀ t ∈ g, countIndividualFor msgs t.id = 1)) := by
  obtain ⟨hgfilter, hgne⟩ := grouping_char today tasks L g hg
  have hkeys := grouping_keys_nodup today tasks
  obtain ⟨s1, s2, hsplit⟩ := List.append_of_mem hg
  have hkeys2 : ((s1.map Prod.fst) ++ L :: (s2.map Prod.fst)).Nodup := by
    rw [hsplit] at hkeys
    simpa [keysG] using hkeys
  obtain ⟨hk1, hk2, hkdisj⟩ := List.nodup_append.mp hkeys2
  have hLs2 : L ∉ s2.map Prod.fst := (List.nodup_cons.mp hk2).1
  have hLs1 : L ∉ s1.map Prod.fst :=
    fun hin => hkdisj hin (List.mem_cons_self _ _)
  have hne1 : ∀ e ∈ s1, e.1 ≠ L :=
    fun e he heq => hLs1 (heq ▸ List.mem_map_of_mem Prod.fst he)
  have hne2 : ∀ e ∈ s2, e.1 ≠ L :=
    fun e he heq => hLs2 (heq ▸ List.mem_map_of_mem Prod.fst he)
  have hmem1 : ∀ e ∈ s1, e ∈ group_tasks_by_escalation today tasks := by
    intro e he
    rw [hsplit]
    exact List.mem_append_left _ he
  have hmem2 : ∀ e ∈ s2, e ∈ group_tasks_by_escalation today tasks := by
    intro e he
    rw [hsplit]
    exact List.mem_append_right _ (List.mem_cons_of_mem _ he)
  have hmemlev : ∀ (k2 : Int) (g2 : List Task),
      (k2, g2) ∈ group_tasks_by_escalation today tasks → ∀ x ∈ g2,
      (3 ≤ calculate_escalation_level today x ∧
       calculate_escalation_level today x = k2) := by
    intro k2 g2 hmem x hx
    obtain ⟨hf, -⟩ := grouping_char today tasks k2 g2 hmem
    rw [hf] at hx
    have hx2 := (List.mem_filter.mp hx).2
    simpa [atLevel] using hx2
  have hmemtasks : ∀ (k2 : Int) (g2 : List Task),
      (k2, g2) ∈ group_tasks_by_escalation today tasks → ∀ x ∈ g2, x ∈ tasks := by
    intro k2 g2 hmem x hx
    obtain ⟨hf, -⟩ := grouping_char today tasks k2 g2 hmem
    rw [hf] at hx
    exact (List.mem_filter.mp hx).1
  have hinj := List.inj_on_of_nodup_map hnd
  rw [hsplit, List.flatMap_append, List.flatMap_cons] at hmsgs
  have hs1g : countGroupedAt
      (s1.flatMap (fun lg => if should_consolidate lg.2 then
          send_grouped_escalation today lg.2 lg.1
        else lg.2.flatMap (send_escalation_notification today))) L = 0 := by
    unfold countGroupedAt
    apply countP_flatMap_zero
    intro e he
    have := entry_grouped_count_zero today L e (hne1 e he)
    simpa [countGroupedAt] using this
  have hs2g : countGroupedAt
      (s2.flatMap (fun lg => if should_consolidate lg.2 then
          send_grouped_escalation today lg.2 lg.1
        else lg.2.flatMap (send_escalation_notification today))) L = 0 := by
    unfold countGroupedAt
    apply countP_flatMap_zero
    intro e he
    have := entry_grouped_count_zero today L e (hne2 e he)
    simpa [countGroupedAt] using this
  have hindiv_side : ∀ t ∈ g, ∀ s : List (Int × List Task), (∀ e ∈ s, e.1 ≠ L) →
      (∀ e ∈ s, e ∈ group_tasks_by_escalation today tasks) →
      countIndividualFor
        (s.flatMap (fun lg => if should_consolidate lg.2 then
            send_grouped_escalation today lg.2 lg.1
          else lg.2.flatMap (send_escalation_notification today))) t.id = 0 := by
    intro t ht s hsne hsmem
    unfold countIndividualFor
    apply countP_flatMap_zero
    intro e he
    obtain ⟨k2, g2⟩ := e
    have hlev : ∀ x ∈ g2, 3 ≤ calculate_escalation_level today x :=
      fun x hx => (hmemlev k2 g2 (hsmem _ he) x hx).1
    have hno : ∀ x ∈ g2, x.id ≠ t.id := by
      intro x hx heq
      have hxt : x = t := hinj (hmemtasks k2 g2 (hsmem _ he) x hx)
        (hmemtasks L g hg t ht) heq
      have hxk : calculate_escalation_level today x = k2 :=
        (hmemlev k2 g2 (hsmem _ he) x hx).2
      have htL : calculate_escalation_level today t = L :=
        (hmemlev L g hg t ht).2
      rw [hxt, htL] at hxk
      exact hsne _ he hxk.symm
    have := entry_individual_count_zero today t.id (k2, g2) hlev hno
    simpa [countIndividualFor] using this
  constructor
  · intro h3g
    have hctrue : should_consolidate g = true := by
      simp [should_consolidate, h3g]
    have hnot3 : ¬ g.length < 3 := by omega
    have hmid : (if should_consolidate g then
        send_grouped_escalation today g L
      else g.flatMap (send_escalation_notification today)) =
        [.grouped L ((g.take 10).map Task.id)
          (if 10 < g.length then some (g.length - 10) else none)] := by
      rw [if_pos hctrue, send_grouped_escalation, if_neg hnot3]
    refine ⟨?_, ?_, ?_⟩
    · rw [hmsgs]
      unfold countGroupedAt
      rw [List.countP_append, List.countP_append]
      have hmidc : countGroupedAt (if should_consolidate g then
          send_grouped_escalation today g L
        else g.flatMap (send_escalation_notification today)) L = 1 := by
        rw [hmid]
        simp [countGroupedAt, List.countP_cons]
      simp only [countGroupedAt] at hs1g hs2g hmidc
      simp only [hs1g, hs2g]
      have hbeta : (if should_consolidate (L, g).2 then
          send_grouped_escalation today (L, g).2 (L, g).1
        else (L, g).2.flatMap (send_escalation_notification today)) =
          (if should_consolidate g then send_grouped_escalation today g L
           else g.flatMap (send_escalation_notification today)) := rfl
      rw [hbeta, hmidc]
    · rw [hmsgs]
      apply List.mem_append_right
      apply List.mem_append_left
      have hbeta : (if should_consolidate (L, g).2 then
          send_grouped_escalation today (L, g).2 (L, g).1
        else (L, g).2.flatMap (send_escalation_notification today)) =
          (if should_consolidate g then send_grouped_escalation today g L
           else g.flatMap (send_escalation_notification today)) := rfl
      rw [hbeta, hmid]
      exact List.mem_singleton.mpr rfl
    · intro t ht
      rw [hmsgs]
      unfold countIndividualFor
      rw [List.countP_append, List.countP_append]
      have hz1 := hindiv_side t ht s1 hne1 hmem1
      have hz2 := hindiv_side t ht s2 hne2 hmem2
      simp only [countIndividualFor] at hz1 hz2
      have hmidc : countIndividualFor (if should_consolidate g then
          send_grouped_escalation today g L
        else g.flatMap (send_escalation_notification today)) t.id = 0 := by
        rw [hmid]
        simp [countIndividualFor, List.countP_cons]
      simp only [countIndividualFor] at hmidc
      have hbeta : (if should_consolidate (L, g).2 then
          send_grouped_escalation today (L, g).2 (L, g).1
        else (L, g).2.flatMap (send_escalation_notification today)) =
          (if should_consolidate g then send_grouped_escalation today g L
           else g.flatMap (send_escalation_notification today)) := rfl
      rw [hbeta, hz1, hz2, hmidc]
  · intro hlt
    have hcfalse : ¬ should_consolidate g = true := by
      simp [should_consolidate]
      omega
    have hmid : (if should_consolidate g then
        send_grouped_escalation today g L
      else g.flatMap (send_escalation_notification today)) =
        g.flatMap (send_escalation_notification today) := if_neg hcfalse
    refine ⟨?_, ?_⟩
    · rw [hmsgs]
      unfold countGroupedAt
      rw [List.countP_append, List.countP_append]
      have hmidc := individuals_grouped_count_zero today L g
      simp only [countGroupedAt] at hs1g hs2g hmidc
      have hbeta : (if should_consolidate (L, g).2 then
          send_grouped_escalation today (L, g).2 (L, g).1
        else (L, g).2.flatMap (send_escalation_notification today)) =
          (if should_consolidate g then send_grouped_escalation today g L
           else g.flatMap (send_escalation_notification today)) := rfl
      rw [hbeta, hmid, hs1g, hs2g, hmidc]
    · intro t ht
      rw [hmsgs]
      unfold countIndividualFor
      rw [List.countP_append, List.countP_append]
      have hz1 := hindiv_side t ht s1 hne1 hmem1
      have hz2 := hindiv_side t ht s2 hne2 hmem2
      simp only [countIndividualFor] at hz1 hz2
      have hlev : ∀ x ∈ g, 3 ≤ calculate_escalation_level today x :=
        fun x hx => (hmemlev L g hg x hx).1
      have hmidc : (g.flatMap (send_escalation_notification today)).countP
          (fun m => match m with
            | .individual i _ => decide (i = t.id)
            | _ => false) = 1 := by
        rw [individuals_countP today g _ hlev]
        have hcongr : g.countP (fun x =>
            (fun m => match m with
              | Msg.individual i _ => decide (i = t.id)
              | _ => false)
            (.individual x.id (calculate_escalation_level today x))) =
            g.countP (fun x => decide (x.id = t.id)) := rfl
        rw [hcongr, hgfilter]
        exact countP_id_in_group today tasks L t hnd (hgfilter ▸ ht)
      have hbeta : (if should_consolidate (L, g).2 then
          send_grouped_escalation today (L, g).2 (L, g).1
        else (L, g).2.flatMap (send_escalation_notification today)) =
          (if should_consolidate g then send_grouped_escalation today g L
           else g.flatMap (send_escalation_notification today)) := rfl
      rw [hbeta, hmid, hz1, hz2, hmidc]

theorem fetched_nodup (today : Int) (db : List Task) (a : String)
    (hnd : (db.map Task.id).Nodup) :
    ((get_tasks_needing_notification today db a).map Task.id).Nodup := by
  have hsub : (get_tasks_needing_notification today db a).Sublist db :=
    (List.filter_sublist _).trans (List.filter_sublist _)
  exact List.Nodup.sublist (hsub.map Task.id) hnd

/-- C6: in a dispatch cycle, tasks at level ≥ 3 are grouped by level; a level
with at least 3 tasks yields exactly one consolidated message — listing at
most 10 tasks, with the "...and N more" tail exactly when there are more
than 10 — and zero individual messages for its tasks, while a level with
fewer than 3 tasks yields exactly one individual message per task and no
grouped message.  (Distinct task ids are assumed, as for DB rows.) -/
theorem claim_C6_consolidation (today : Int) (db : List Task)
    (hnd : (db.map Task.id).Nodup) (L : Int) (g : List Task)
    (hg : (L, g) ∈ group_tasks_by_escalation today
      (get_tasks_needing_notification today db)) :
    (3 ≤ g.length →
      countGroupedAt (send_escalation_notifications today db) L = 1 ∧
      Msg.grouped L ((g.take 10).map Task.id)
          (if 10 < g.length then some (g.length - 10) else none) ∈
        send_escalation_notifications today db ∧
      ((g.take 10).map Task.id).length ≤ 10 ∧
      (∀ t ∈ g,
        countIndividualFor (send_escalation_notifications today db) t.id = 0)) ∧
    (g.length < 3 →
      countGroupedAt (send_escalation_notifications today db) L = 0 ∧
      (∀ t ∈ g,
        countIndividualFor (send_escalation_notifications today db) t.id = 1)) := by
  have hfn : ((get_tasks_needing_notification today db).map Task.id).Nodup :=
    fetched_nodup today db "ivan" hnd
  have hne : (get_tasks_needing_notification today db).isEmpty = false := by
    cases hterm : get_tasks_needing_notification today db with
    | nil =>
      rw [hterm] at hg
      simp [group_tasks_by_escalation] at hg
    | cons a l => rfl
  have hmsgs : send_escalation_notifications today db =
      (group_tasks_by_escalation today
        (get_tasks_needing_notification today db)).flatMap
        (fun lg => if should_consolidate lg.2 then
            send_grouped_escalation today lg.2 lg.1
          else lg.2.flatMap (send_escalation_notification today)) := by
    simp [send_escalation_notifications, hne]
  have h := dispatch_counts today (get_tasks_needing_notification today db)
    (send_escalation_notifications today db) hfn L g hg hmsgs
  refine ⟨fun h3 => ?_, h.2⟩
  obtain ⟨c1, c2, c3⟩ := h.1 h3
  refine ⟨c1, c2, ?_, c3⟩
  simp only [List.length_map, List.length_take]
  omega

/-- Witness for C6: three tasks at level 5 produce exactly one consolidated
message at level 5. -/
theorem claim_C6_witness :
    countGroupedAt
      (send_escalation_notifications 0
        [{ id := "T0", assignee := some "ivan", due_date := some (-5) },
         { id := "T1", assignee := some "ivan", due_date := some (-5) },
         { id := "T2", assignee := some "ivan", due_date := some (-5) }]) 5 = 1 := by
  have h := claim_C6_consolidation 0
    [{ id := "T0", assignee := some "ivan", due_date := some (-5) },
     { id := "T1", assignee := some "ivan", due_date := some (-5) },
     { id := "T2", assignee := some "ivan", due_date := some (-5) }]
    (by decide) 5
    [{ id := "T0", assignee := some "ivan", due_date := some (-5) },
     { id := "T1", assignee := some "ivan", due_date := some (-5) },
     { id := "T2", assignee := some "ivan", due_date := some (-5) }]
    (by decide)
  exact (h.1 (by decide)).1

/-! ## C7 and C8: webhook parsing -/

theorem ok_bind (a : α) (f : α → Except String β) :
    (Except.ok a >>= f) = f a := rfl

theorem pyGet_obj_ok (fields : List (String × JValue)) (k : String)
    (dflt : JValue) :
    pyGet (.obj fields) k dflt = .ok ((fields.lookup k).getD dflt) := by
  cases hl : fields.lookup k <;> simp [pyGet, hl]

theorem pyGetOpt_obj_ok (fields : List (String × JValue)) (k : String) :
    pyGetOpt (.obj fields) k = .ok ((fields.lookup k).getD .null) := by
  unfold pyGetOpt
  exact pyGet_obj_ok fields k .null

theorem fieldOk_getD (fields : List (String × JValue)) (k : String)
    (p : JValue → Bool) (dflt : JValue)
    (h : fieldOk (.obj fields) k p = true) (hd : p dflt = true) :
    p ((fields.lookup k).getD dflt) = true := by
  cases hl : fields.lookup k with
  | none => simpa using hd
  | some w =>
    simp only [fieldOk, hl] at h
    simpa [hl] using h

theorem isObj_exists {v : JValue} (h : isObj v = true) :
    ∃ l, v = .obj l := by
  cases v with
  | obj l => exact ⟨l, rfl⟩
  | null => simp [isObj] at h
  | bool b => simp [isObj] at h
  | num n => simp [isObj] at h
  | str s => simp [isObj] at h
  | arr l => simp [isObj] at h

theorem isStr_exists {v : JValue} (h : isStr v = true) :
    ∃ s, v = .str s := by
  cases v with
  | str s => exact ⟨s, rfl⟩
  | null => simp [isStr] at h
  | bool b => simp [isStr] at h
  | num n => simp [isStr] at h
  | arr l => simp [isStr] at h
  | obj l => simp [isStr] at h

theorem beq_null_eq (v : JValue) (h : (v == JValue.null) = true) :
    v = JValue.null := by
  cases v with
  | null => rfl
  | bool b => simp [BEq.beq, JValue.beq] at h
  | num n => simp [BEq.beq, JValue.beq] at h
  | str s => simp [BEq.beq, JValue.beq] at h
  | arr l => simp [BEq.beq, JValue.beq] at h
  | obj l => simp [BEq.beq, JValue.beq] at h

/-- C7 counterexample to the claim as stated: a ClickUp comment whose text
mentions nobody, on a payload that carries no ownership information at all
(there is no assignee field in ClickUp comment webhooks, and the parser
checks none), is still classified as `comment_on_owned` — so the event is
produced whether or not the notified user owns the task, and a comment that
is neither a mention nor on an owned task does NOT produce "no event". -/
theorem claim_C7_counterexample :
    resultTrigger (parse_webhook_event "clickup" "taskCommentPosted"
        (mkClickupCommentPayload "9" "c1" "tamas" "looks good to me")) =
      some .comment_on_owned ∧
    strIn "ivan" (strLower "looks good to me") = false ∧
    strIn "@ivan" (strLower "looks good to me") = false := by
  decide

/-- C7 (amended): on well-formed comment payloads, the parser classifies a
GitHub comment as `mentioned` exactly when the body contains "@ivanivanka"
or, case-insensitively, "ivan", and as `comment_on_owned` only when it is a
non-mention comment on an issue whose assignee login is "ivanivanka"
(otherwise no event); a ClickUp comment is `mentioned` exactly when its text
contains, case-insensitively, "@ivan" or "ivan", and EVERY other ClickUp
comment yields `comment_on_owned`, with no ownership check at all. -/
theorem claim_C7_webhook_classification (number commentId : Int)
    (commenter body : String) (assigneeLogin : Option String)
    (taskId cId cName text : String) (htid : taskId ≠ "") :
    (resultTrigger (parse_webhook_event "github" "issue_comment"
        (mkGithubCommentPayload number commentId commenter body assigneeLogin)) =
      (if strIn "@ivanivanka" body = true ∨ strIn "ivan" (strLower body) = true then
        some .mentioned
      else if assigneeLogin = some "ivanivanka" then some .comment_on_owned
      else none)) ∧
    (resultTrigger (parse_webhook_event "clickup" "taskCommentPosted"
        (mkClickupCommentPayload taskId cId cName text)) =
      (if strIn "@ivan" (strLower text) = true ∨ strIn "ivan" (strLower text) = true then
        some .mentioned
      else some .comment_on_owned)) := by
  constructor
  · cases assigneeLogin with
    | none =>
      by_cases h1 : strIn "@ivanivanka" body = true <;>
        by_cases h2 : strIn "ivan" (strLower body) = true <;>
        simp [parse_webhook_event, parse_github_webhook, mkGithubCommentPayload,
          pyGetOpt, pyGet, pyIn, pyLower, pySlice100, resultTrigger,
          List.lookup, JValue.truthy, Bind.bind, Except.bind, Pure.pure,
          Except.pure, h1, h2, BEq.beq, JValue.beq]
    | some l =>
      by_cases h1 : strIn "@ivanivanka" body = true <;>
        by_cases h2 : strIn "ivan" (strLower body) = true <;>
        by_cases h3 : l = "ivanivanka" <;>
        simp [parse_webhook_event, parse_github_webhook, mkGithubCommentPayload,
          pyGetOpt, pyGet, pyIn, pyLower, pySlice100, resultTrigger,
          List.lookup, JValue.truthy, Bind.bind, Except.bind, Pure.pure,
          Except.pure, h1, h2, h3, BEq.beq, JValue.beq]
  · have hie : taskId.isEmpty = false := by
      cases he : taskId.isEmpty
      · rfl
      · exact absurd ((String.isEmpty_iff taskId).mp he) htid
    by_cases h1 : strIn "@ivan" (strLower text) = true <;>
      by_cases h2 : strIn "ivan" (strLower text) = true <;>
      simp [parse_webhook_event, parse_clickup_webhook, mkClickupCommentPayload,
        pyGetOpt, pyGet, pyIn, pyLower, pySlice100, pyIndex0, resultTrigger,
        List.lookup, JValue.truthy, Bind.bind, Except.bind, Pure.pure,
        Except.pure, h1, h2, hie, BEq.beq, JValue.beq]

/-- Witness for C7 at concrete payload contents. -/
theorem claim_C7_witness :
    resultTrigger (parse_webhook_event "clickup" "taskCommentPosted"
        (mkClickupCommentPayload "9" "c1" "tamas" "ping @ivan")) =
      (if strIn "@ivan" (strLower "ping @ivan") = true ∨
          strIn "ivan" (strLower "ping @ivan") = true then
        some .mentioned
      else some .comment_on_owned) :=
  (claim_C7_webhook_classification 7 3 "tamas" "hello" none
    "9" "c1" "tamas" "ping @ivan" (by decide)).2

/-- C8 counterexample to the claim as stated: two payloads on which the
parser raises rather than returning Event-or-None — a GitHub comment whose
`body` is JSON null (Python `"@ivanivanka" in None` raises TypeError), and a
ClickUp comment whose `history_items` holds a number instead of an object
(Python `5.get("comment", ...)` raises AttributeError). -/
theorem claim_C8_counterexample :
    exceptOk (parse_webhook_event "github" "issue_comment"
      (.obj [("action", .str "created"),
             ("comment", .obj [("body", .null), ("user", .obj [])]),
             ("issue", .obj [])])) = false ∧
    exceptOk (parse_webhook_event "clickup" "taskCommentPosted"
      (.obj [("task_id", .str "x"), ("history_items", .arr [.num 5])])) = false := by
  decide

theorem github_no_raise (event_type : String) (payload : JValue)
    (h : githubWellShaped payload = true) :
    exceptOk (parse_github_webhook event_type payload) = true := by
  unfold githubWellShaped at h
  simp only [Bool.and_eq_true] at h
  obtain ⟨⟨hobj, hcomment⟩, hissue⟩ := h
  obtain ⟨fields, rfl⟩ := isObj_exists hobj
  unfold parse_github_webhook
  by_cases het : event_type = "issue_comment"
  case neg => rw [if_neg het]; rfl
  rw [if_pos het]
  by_cases hact : (((fields.lookup "action").getD .null) == JValue.str "created") = true
  case neg =>
    simp [pyGetOpt_obj_ok, ok_bind, Pure.pure, Except.pure, hact, exceptOk]
  have hc := fieldOk_getD fields "comment"
    (fun c => isObj c && fieldOk c "user" isObj && fieldOk c "body" isStr)
    (.obj []) hcomment rfl
  simp only [Bool.and_eq_true] at hc
  obtain ⟨⟨hcobj, hcuser⟩, hcbody⟩ := hc
  obtain ⟨cf, hcf⟩ := isObj_exists hcobj
  have hi := fieldOk_getD fields "issue"
    (fun i => isObj i && fieldOk i "assignee" (fun a => isObj a || a == JValue.null))
    (.obj []) hissue rfl
  simp only [Bool.and_eq_true] at hi
  obtain ⟨hiobj, hiassign⟩ := hi
  obtain ⟨jf, hjf⟩ := isObj_exists hiobj
  have hu := fieldOk_getD cf "user" isObj (.obj []) (hcf ▸ hcuser) rfl
  obtain ⟨uf, huf⟩ := isObj_exists hu
  have hb := fieldOk_getD cf "body" isStr (.str "") (hcf ▸ hcbody) rfl
  obtain ⟨bs, hbs⟩ := isStr_exists hb
  by_cases hm1 : strIn "@ivanivanka" bs = true
  · simp [pyGetOpt_obj_ok, pyGet_obj_ok, ok_bind, Pure.pure, Except.pure, hact, hcf, hjf, huf, hbs,
      pyIn, pySlice100, exceptOk, hm1]
  by_cases hm2 : strIn "ivan" (strLower bs) = true
  · simp [pyGetOpt_obj_ok, pyGet_obj_ok, ok_bind, Pure.pure, Except.pure, hact, hcf, hjf, huf, hbs,
      pyIn, pyLower, pySlice100, exceptOk, hm1, hm2]
  have ha := fieldOk_getD jf "assignee"
    (fun a => isObj a || a == JValue.null) (.obj []) (hjf ▸ hiassign) rfl
  by_cases hat : ((jf.lookup "assignee").getD (.obj [])).truthy = true
  · have hobj2 : isObj ((jf.lookup "assignee").getD (.obj [])) = true := by
      rcases (Bool.or_eq_true _ _).mp ha with hx | hx
      · exact hx
      · rw [beq_null_eq _ hx] at hat
        simp [JValue.truthy] at hat
    obtain ⟨af, haf⟩ := isObj_exists hobj2
    by_cases hlg : (((af.lookup "login").getD .null) == JValue.str "ivanivanka") = true
    · simp only [pyGetOpt_obj_ok, pyGet_obj_ok, ok_bind, Pure.pure, Except.pure,
        hact, hcf, hjf, huf, hbs, haf, pyIn, pyLower, pySlice100, exceptOk,
        hm1, hm2, hat, hlg, if_true, if_false, Bool.false_eq_true, ite_false,
        ite_true]
      by_cases hT : (JValue.obj af).truthy = true <;> simp [hT]
    · simp only [pyGetOpt_obj_ok, pyGet_obj_ok, ok_bind, Pure.pure, Except.pure,
        hact, hcf, hjf, huf, hbs, haf, pyIn, pyLower, pySlice100, exceptOk,
        hm1, hm2, hat, hlg, if_true, if_false, Bool.false_eq_true, ite_false,
        ite_true]
      by_cases hT : (JValue.obj af).truthy = true <;> simp [hT]
  · simp [pyGetOpt_obj_ok, pyGet_obj_ok, ok_bind, Pure.pure, Except.pure, hact, hcf, hjf, huf, hbs,
      pyIn, pyLower, pySlice100, exceptOk, hm1, hm2, hat]

theorem clickup_no_raise (event_type : String) (payload : JValue)
    (h : clickupWellShaped payload = true) :
    exceptOk (parse_clickup_webhook event_type payload) = true := by
  unfold clickupWellShaped at h
  simp only [Bool.and_eq_true] at h
  obtain ⟨⟨hobj, htask⟩, hhist⟩ := h
  obtain ⟨fields, rfl⟩ := isObj_exists hobj
  have hhp := fieldOk_getD fields "history_items"
    (fun hv => match hv with
      | .arr [] => true
      | .arr (x :: _) =>
        isObj x && fieldOk x "comment" (fun c =>
          isObj c && fieldOk c "user" isObj && fieldOk c "text_content" isStr)
      | _ => false)
    (.arr [.obj []]) hhist rfl
  have hmain : ∀ raw : JValue,
      exceptOk (if ¬ raw.truthy = true then
          (pure none : Except String (Option Event))
        else
          if event_type = "taskCommentPosted" then
            if ((fields.lookup "history_items").getD (.arr [.obj []])).truthy = true then do
              let head ← pyIndex0 ((fields.lookup "history_items").getD (.arr [.obj []]))
              let comment_data ← pyGet head "comment" (.obj [])
              let user ← pyGet comment_data "user" (.obj [])
              let commenter ← pyGet user "username" (.str "unknown")
              let text ← pyGet comment_data "text_content" (.str "")
              let comment_id ← pyGet comment_data "id" (.str "unknown")
              let textLowerA ← pyLower text
              let mentionA ← pyIn "@ivan" textLowerA
              if mentionA = true then do
                let y ← (pure true : Except String Bool)
                if y = true then do
                  let preview ← pySlice100 text
                  pure (some { trigger := EventType.mentioned,
                               task_id := "clickup:" ++ raw.pyStr,
                               fingerprint := "comment_id=" ++ comment_id.pyStr,
                               context := [("commenter", commenter),
                                           ("body_preview", preview)] })
                else do
                  let preview ← pySlice100 text
                  pure (some { trigger := EventType.comment_on_owned,
                               task_id := "clickup:" ++ raw.pyStr,
                               fingerprint := "comment_id=" ++ comment_id.pyStr,
                               context := [("commenter", commenter),
                                           ("body_preview", preview)] })
              else do
                let textLowerB ← pyLower text
                let y ← pyIn "ivan" textLowerB
                if y = true then do
                  let preview ← pySlice100 text
                  pure (some { trigger := EventType.mentioned,
                               task_id := "clickup:" ++ raw.pyStr,
                               fingerprint := "comment_id=" ++ comment_id.pyStr,
                               context := [("commenter", commenter),
                                           ("body_preview", preview)] })
                else do
                  let preview ← pySlice100 text
                  pure (some { trigger := EventType.comment_on_owned,
                               task_id := "clickup:" ++ raw.pyStr,
                               fingerprint := "comment_id=" ++ comment_id.pyStr,
                               context := [("commenter", commenter),
                                           ("body_preview", preview)] })
            else pure none
          else pure none) = true := by
    intro raw
    by_cases hraw : raw.truthy = true
    case neg => rw [if_pos (by simp [hraw])]; rfl
    rw [if_neg (by simp [hraw])]
    by_cases het : event_type = "taskCommentPosted"
    case neg => rw [if_neg het]; rfl
    rw [if_pos het]
    by_cases hht : ((fields.lookup "history_items").getD (.arr [.obj []])).truthy = true
    case neg => rw [if_neg hht]; rfl
    rw [if_pos hht]
    cases hv : (fields.lookup "history_items").getD (.arr [.obj []]) with
    | arr l =>
      rw [hv] at hhp
      cases l with
      | nil =>
        rw [hv] at hht
        simp [JValue.truthy] at hht
      | cons x xs =>
        simp only [Bool.and_eq_true] at hhp
        obtain ⟨hxobj, hxcomment⟩ := hhp
        obtain ⟨xf, hxf⟩ := isObj_exists hxobj
        have hcd := fieldOk_getD xf "comment"
          (fun c => isObj c && fieldOk c "user" isObj &&
            fieldOk c "text_content" isStr) (.obj []) (hxf ▸ hxcomment) rfl
        simp only [Bool.and_eq_true] at hcd
        obtain ⟨⟨hcobj, hcuser⟩, hctext⟩ := hcd
        obtain ⟨cf, hcf⟩ := isObj_exists hcobj
        have hu := fieldOk_getD cf "user" isObj (.obj []) (hcf ▸ hcuser) rfl
        obtain ⟨uf, huf⟩ := isObj_exists hu
        have htx := fieldOk_getD cf "text_content" isStr (.str "")
          (hcf ▸ hctext) rfl
        obtain ⟨ts, hts⟩ := isStr_exists htx
        by_cases hm1 : strIn "@ivan" (strLower ts) = true
        · simp [pyIndex0, hxf, hcf, huf, hts, pyGet_obj_ok, ok_bind,
            Pure.pure, Except.pure, pyIn, pyLower, pySlice100, exceptOk, hm1]
        by_cases hm2 : strIn "ivan" (strLower ts) = true
        · simp [pyIndex0, hxf, hcf, huf, hts, pyGet_obj_ok, ok_bind,
            Pure.pure, Except.pure, pyIn, pyLower, pySlice100, exceptOk,
            hm1, hm2]
        · simp [pyIndex0, hxf, hcf, huf, hts, pyGet_obj_ok, ok_bind,
            Pure.pure, Except.pure, pyIn, pyLower, pySlice100, exceptOk,
            hm1, hm2]
    | null => rw [hv] at hhp; simp at hhp
    | bool b => rw [hv] at hhp; simp at hhp
    | num n => rw [hv] at hhp; simp at hhp
    | str s => rw [hv] at hhp; simp at hhp
    | obj l => rw [hv] at hhp; simp at hhp
  unfold parse_clickup_webhook
  rw [pyGetOpt_obj_ok, ok_bind]
  by_cases ht1 : ((fields.lookup "task_id").getD .null).truthy = true
  · rw [if_pos ht1]
    simp only [pyGet_obj_ok, ok_bind, Pure.pure, Except.pure]
    exact hmain _
  · rw [if_neg ht1]
    have htaskv := fieldOk_getD fields "task" isObj (.obj []) htask rfl
    obtain ⟨tf, htf⟩ := isObj_exists htaskv
    simp only [pyGet_obj_ok, ok_bind, htf, pyGetOpt_obj_ok]
    exact hmain _

/-- C8 (amended): `parse_webhook_event` returns an Event or None and never
raises, for every source string, event-type string and payload whose
present nested fields have the JSON types the parser expects (objects where
`.get` is called, a string comment body/text, a list of objects in
`history_items`, an object-or-null assignee) — missing fields are always
tolerated.  Outside that shape the parser can raise, as the counterexample
shows, so the qualification is necessary. -/
theorem claim_C8_no_raise (source event_type : String) (payload : JValue)
    (hg : source = "github" → githubWellShaped payload = true)
    (hc : source = "clickup" → clickupWellShaped payload = true) :
    exceptOk (parse_webhook_event source event_type payload) = true := by
  unfold parse_webhook_event
  by_cases hsg : source = "github"
  · rw [if_pos hsg]
    exact github_no_raise event_type payload (hg hsg)
  · rw [if_neg hsg]
    by_cases hsc : source = "clickup"
    · rw [if_pos hsc]
      exact clickup_no_raise event_type payload (hc hsc)
    · rw [if_neg hsc]
      rfl

/-- Witness for C8 at a concrete well-shaped payload. -/
theorem claim_C8_witness :
    githubWellShaped (mkGithubCommentPayload 7 3 "tamas" "hello" none) = true ∧
    exceptOk (parse_webhook_event "github" "issue_comment"
      (mkGithubCommentPayload 7 3 "tamas" "hello" none)) = true :=
  ⟨by decide,
   claim_C8_no_raise "github" "issue_comment"
     (mkGithubCommentPayload 7 3 "tamas" "hello" none)
     (fun _ => by decide)
     (fun hcontra => absurd hcontra (by decide))⟩
